import Mathlib

/-!
Verification of the BreathClean route-scoring pipeline.

The definitions below are a shallow embedding of the TypeScript sources:
`server/src/controllers/score.controller.ts` (score calculator, controller),
`server/src/utils/compute/breakPoint.compute.ts` (breakpoint extractor),
`server/src/utils/compute/aqi.compute.ts` / `weather.compute.ts`
(environmental fetchers) and
`server/src/utils/scheduler/computeData.scheduler.ts` (rescoring scheduler).
JavaScript numbers are modelled as exact rationals; `Math.round` becomes
`jsRound`, and asynchronous effects (HTTP fetches, the Redis cache, the
event loop) are modelled by explicit oracles and transition systems.
-/

namespace BreathClean

section RatKernelEval

/- Batteries marks the rational operations irreducible, which stops
`decide` from evaluating concrete scores; re-allow unfolding locally. -/
attribute [local semireducible] Rat.add Rat.sub Rat.mul Rat.inv

/-- JavaScript `Math.round` on exact rational arithmetic:
round half toward positive infinity. -/
def jsRound (q : ℚ) : ℤ := ⌊q + 1/2⌋

/-- The pervasive `Math.round(x * 10) / 10` one-decimal rounding idiom
of the score calculator. -/
def round1 (q : ℚ) : ℚ := (jsRound (q * 10) : ℚ) / 10

/-- Coordinate value type `{ lat, lon }`. -/
structure Coordinate where
  lat : ℚ
  lon : ℚ
deriving Repr, DecidableEq

/-- The `main` weather object kept from the provider response
(`weather.compute.ts`). -/
structure WeatherMain where
  temp : ℚ
  feels_like : ℚ
  temp_min : ℚ
  temp_max : ℚ
  pressure : ℚ
  humidity : ℚ
deriving Repr, DecidableEq

/-- Per-breakpoint weather fetch result; `main = none` models the `null`
reading recorded on fetch failure. -/
structure PointWeatherResult where
  point : String
  coordinate : Coordinate
  main : Option WeatherMain
deriving Repr, DecidableEq

/-- Per-route weather fetch result (`RouteWeatherResult`). -/
structure RouteWeatherResult where
  routeIndex : ℕ
  points : List PointWeatherResult
  totalPoints : ℕ
  successfulFetches : ℕ
deriving Repr, DecidableEq

/-- The AQI reading kept from the AQICN response (`aqi.compute.ts`).
The `aqi` field is optional because the controller guards
`point.aqi.aqi !== undefined`; pollutant details are elided (no claim
touches them). -/
structure AQIData where
  aqi : Option ℚ
  dominentpol : Option String
deriving Repr, DecidableEq

/-- Per-breakpoint AQI fetch result; `aqi = none` models the `null`
reading recorded on fetch failure. -/
structure PointAQIResult where
  point : String
  coordinate : Coordinate
  aqi : Option AQIData
deriving Repr, DecidableEq

/-- Per-route AQI fetch result (`RouteAQIResult`). -/
structure RouteAQIResult where
  routeIndex : ℕ
  points : List PointAQIResult
  totalPoints : ℕ
  successfulFetches : ℕ
deriving Repr, DecidableEq

/-- Source `calculateTemperatureScore`: optimal 21 °C, ±1 free, then 6 points
per degree. -/
def calculateTemperatureScore (temp : ℚ) : ℚ :=
  let diff := |temp - 21|
  if diff ≤ 1 then 100 else max 0 (100 - diff * 6)

/-- Source `calculateHumidityScore`: optimal band 45–55 %, then 2 points per
percent beyond the band. -/
def calculateHumidityScore (humidity : ℚ) : ℚ :=
  if 45 ≤ humidity ∧ humidity ≤ 55 then 100
  else max 0 (100 - (|humidity - 50| - 5) * 2)

/-- Source `calculatePressureScore`: optimal 1013 hPa, ±2 free, then 4 points
per hPa. -/
def calculatePressureScore (pressure : ℚ) : ℚ :=
  let diff := |pressure - 1013|
  if diff ≤ 2 then 100 else max 0 (100 - (diff - 2) * 4)

/-- The `WeatherScore` record returned by `calculateWeatherScore`. -/
structure WeatherScore where
  temperature : ℚ
  humidity : ℚ
  pressure : ℚ
  overall : ℚ
deriving Repr, DecidableEq

/-- Source `calculateWeatherScore`: average the three sub-scores over points with
a non-null `main` reading (0 if none), blend 50/30/20, round each to one
decimal. -/
def calculateWeatherScore (weatherData : RouteWeatherResult) : WeatherScore :=
  let valids := weatherData.points.filterMap (fun p => p.main)
  let n : ℚ := valids.length
  let tempScore :=
    if valids.length > 0 then (valids.map (fun m => calculateTemperatureScore m.temp)).sum / n else 0
  let humidityScore :=
    if valids.length > 0 then (valids.map (fun m => calculateHumidityScore m.humidity)).sum / n else 0
  let pressureScore :=
    if valids.length > 0 then (valids.map (fun m => calculatePressureScore m.pressure)).sum / n else 0
  let overall := tempScore * (5/10) + humidityScore * (3/10) + pressureScore * (2/10)
  { temperature := round1 tempScore
    humidity := round1 humidityScore
    pressure := round1 pressureScore
    overall := round1 overall }

/-- The `AQIScore` record returned by `calculateAQIScore`. -/
structure AQIScore where
  aqi : ℚ
  score : ℚ
  category : String
deriving Repr, DecidableEq

/-- The valid (non-null, numeric) AQI readings of a point list: the
points passing the `point.aqi && point.aqi.aqi !== undefined` and
`!isNaN(Number(...))` guards of `calculateAQIScore`. -/
def validAQIValues (points : List PointAQIResult) : List ℚ :=
  points.filterMap (fun p => p.aqi.bind (fun d => d.aqi))

/-- The piecewise-linear AQI-to-score curve of `calculateAQIScore`
(before the one-decimal rounding). -/
def aqiScoreOfAvg (avgAQI : ℚ) : ℚ :=
  if avgAQI ≤ 20 then 100
  else if avgAQI ≤ 50 then 100 - (avgAQI - 20) / 30 * 20
  else if avgAQI ≤ 100 then 80 - (avgAQI - 50) / 50 * 30
  else if avgAQI ≤ 150 then 50 - (avgAQI - 100) / 50 * 20
  else if avgAQI ≤ 200 then 30 - (avgAQI - 150) / 50 * 20
  else max 0 (10 - (avgAQI - 200) / 100 * 10)

/-- The category label chosen alongside the score in `calculateAQIScore`. -/
def aqiCategoryOfAvg (avgAQI : ℚ) : String :=
  if avgAQI ≤ 20 then "Excellent"
  else if avgAQI ≤ 50 then "Good"
  else if avgAQI ≤ 100 then "Moderate"
  else if avgAQI ≤ 150 then "Unhealthy for Sensitive Groups"
  else if avgAQI ≤ 200 then "Unhealthy"
  else if avgAQI ≤ 300 then "Very Unhealthy"
  else "Hazardous"

/-- Source `calculateAQIScore` from `score.controller.ts`: average the valid
readings; if there are none, return the explicit no-data floor
`{aqi: 0, score: 0, category: "Unknown - No Data"}`; otherwise apply the
piecewise curve and round to one decimal. -/
def calculateAQIScore (aqiData : RouteAQIResult) : AQIScore :=
  let valids := validAQIValues aqiData.points
  if valids.length = 0 then
    { aqi := 0, score := 0, category := "Unknown - No Data" }
  else
    let avgAQI := valids.sum / (valids.length : ℚ)
    { aqi := round1 avgAQI
      score := round1 (aqiScoreOfAvg avgAQI)
      category := aqiCategoryOfAvg avgAQI }

/-- One route's entry of the controller's score response. -/
structure RouteScoreOut where
  routeIndex : ℕ
  distance : ℚ
  duration : ℚ
  travelMode : String
  breakpointCount : ℕ
  weatherScore : WeatherScore
  aqiScore : AQIScore
  trafficScore : ℚ
  overallScore : ℚ
  lastComputedScore : Option ℚ
  scoreChange : Option ℚ
deriving Repr, DecidableEq

/-- The per-route score computation of `getScoreController`'s map body.
`trafficScore` is passed in already normalised to 0–100 because
`calculateTrafficScore` uses `Math.pow(x, 0.7)`, a real-valued operation
outside exact rational arithmetic; everything downstream of it is exact. -/
def computeRouteScore (routeIndex : ℕ) (distance duration : ℚ) (travelMode : String)
    (routeWeather : RouteWeatherResult) (routeAQI : RouteAQIResult)
    (trafficScore : ℚ) (lastComputedScore : Option ℚ) : RouteScoreOut :=
  let weatherScore := calculateWeatherScore routeWeather
  let aqiScore := calculateAQIScore routeAQI
  let overallScore :=
    round1 (weatherScore.overall * (4/10) + aqiScore.score * (3/10) + trafficScore * (3/10))
  let scoreChange := lastComputedScore.map (fun prior => round1 (overallScore - prior))
  { routeIndex := routeIndex
    distance := distance
    duration := duration
    travelMode := travelMode
    breakpointCount := routeWeather.totalPoints
    weatherScore := weatherScore
    aqiScore := aqiScore
    trafficScore := trafficScore
    overallScore := overallScore
    lastComputedScore := lastComputedScore
    scoreChange := scoreChange }

theorem jsRound_mono {x y : ℚ} (h : x ≤ y) : jsRound x ≤ jsRound y :=
  Int.floor_le_floor (by linarith)

theorem round1_mono {x y : ℚ} (h : x ≤ y) : round1 x ≤ round1 y := by
  unfold round1
  have h1 : jsRound (x * 10) ≤ jsRound (y * 10) := jsRound_mono (by linarith)
  have h2 : ((jsRound (x * 10) : ℤ) : ℚ) ≤ ((jsRound (y * 10) : ℤ) : ℚ) := by exact_mod_cast h1
  linarith

theorem round1_nonneg {x : ℚ} (h : 0 ≤ x) : 0 ≤ round1 x := by
  unfold round1 jsRound
  have h1 : (0 : ℤ) ≤ ⌊x * 10 + 1/2⌋ := Int.floor_nonneg.mpr (by linarith)
  have h2 : ((0 : ℤ) : ℚ) ≤ ((⌊x * 10 + 1/2⌋ : ℤ) : ℚ) := by exact_mod_cast h1
  linarith

theorem round1_le_hundred {x : ℚ} (h : x ≤ 100) : round1 x ≤ 100 := by
  unfold round1 jsRound
  have h0 : ⌊x * 10 + 1/2⌋ < (1001 : ℤ) := by
    rw [Int.floor_lt]
    push_cast
    linarith
  have h1 : (⌊x * 10 + 1/2⌋ : ℤ) ≤ 1000 := by omega
  have h2 : ((⌊x * 10 + 1/2⌋ : ℤ) : ℚ) ≤ ((1000 : ℤ) : ℚ) := by exact_mod_cast h1
  push_cast at h2
  linarith

/-- Example no-data inputs used by the witnesses below. -/
def emptyWeatherRoute : RouteWeatherResult :=
  { routeIndex := 0, points := [], totalPoints := 0, successfulFetches := 0 }

/-- Example AQI input whose two points are a null reading and a reading
with an undefined `aqi` field: zero valid readings. -/
def noDataAQIRoute : RouteAQIResult :=
  { routeIndex := 0
    points :=
      [ { point := "point_1", coordinate := ⟨0, 0⟩, aqi := none }
      , { point := "point_2", coordinate := ⟨0, 0⟩
          aqi := some { aqi := none, dominentpol := some "pm25" } } ]
    totalPoints := 2
    successfulFetches := 0 }

/-- A single-point AQI result whose one reading is valid with value `v`. -/
def singleAQIRoute (v : ℚ) : RouteAQIResult :=
  { routeIndex := 0
    points := [ { point := "point_1", coordinate := ⟨0, 0⟩
                  aqi := some { aqi := some v, dominentpol := none } } ]
    totalPoints := 1
    successfulFetches := 1 }

/-- C1: for every route the overall score equals
`round1(weatherOverall*0.4 + aqiScore*0.3 + trafficScore*0.3)`; whenever
the three sub-scores lie in `[0,100]` so does the overall score; and when
a prior score is supplied, `scoreChange = round1(overall - prior)`. -/
theorem overall_score_weighted_formula_and_bound
    (routeIndex : ℕ) (distance duration : ℚ) (travelMode : String)
    (routeWeather : RouteWeatherResult) (routeAQI : RouteAQIResult)
    (trafficScore : ℚ) (lastComputedScore : Option ℚ) :
    (computeRouteScore routeIndex distance duration travelMode routeWeather routeAQI
        trafficScore lastComputedScore).overallScore =
      round1 ((calculateWeatherScore routeWeather).overall * (4/10) +
        (calculateAQIScore routeAQI).score * (3/10) + trafficScore * (3/10)) ∧
    (0 ≤ (calculateWeatherScore routeWeather).overall →
      (calculateWeatherScore routeWeather).overall ≤ 100 →
      0 ≤ (calculateAQIScore routeAQI).score →
      (calculateAQIScore routeAQI).score ≤ 100 →
      0 ≤ trafficScore → trafficScore ≤ 100 →
      0 ≤ (computeRouteScore routeIndex distance duration travelMode routeWeather routeAQI
          trafficScore lastComputedScore).overallScore ∧
        (computeRouteScore routeIndex distance duration travelMode routeWeather routeAQI
          trafficScore lastComputedScore).overallScore ≤ 100) ∧
    (∀ prior, lastComputedScore = some prior →
      (computeRouteScore routeIndex distance duration travelMode routeWeather routeAQI
          trafficScore lastComputedScore).scoreChange =
        some (round1 ((computeRouteScore routeIndex distance duration travelMode routeWeather
          routeAQI trafficScore lastComputedScore).overallScore - prior))) := by
  refine ⟨rfl, ?_, ?_⟩
  · intro hw0 hw1 ha0 ha1 ht0 ht1
    constructor
    · exact round1_nonneg (by nlinarith)
    · exact round1_le_hundred (by nlinarith)
  · intro prior hprior
    simp [computeRouteScore, hprior]

/-- Witness for C1 at concrete inputs: empty weather and AQI data (both
sub-scores 0) and traffic sub-score 50, with a prior score of 10. -/
theorem overall_score_weighted_formula_and_bound_witness :
    (computeRouteScore 0 1 1 "driving" emptyWeatherRoute noDataAQIRoute 50 (some 10)).overallScore =
      round1 ((calculateWeatherScore emptyWeatherRoute).overall * (4/10) +
        (calculateAQIScore noDataAQIRoute).score * (3/10) + 50 * (3/10)) ∧
    (0 ≤ (computeRouteScore 0 1 1 "driving" emptyWeatherRoute noDataAQIRoute 50
        (some 10)).overallScore ∧
      (computeRouteScore 0 1 1 "driving" emptyWeatherRoute noDataAQIRoute 50
        (some 10)).overallScore ≤ 100) ∧
    (computeRouteScore 0 1 1 "driving" emptyWeatherRoute noDataAQIRoute 50 (some 10)).scoreChange =
      some (round1 ((computeRouteScore 0 1 1 "driving" emptyWeatherRoute noDataAQIRoute 50
        (some 10)).overallScore - 10)) := by
  obtain ⟨h1, h2, h3⟩ :=
    overall_score_weighted_formula_and_bound 0 1 1 "driving" emptyWeatherRoute noDataAQIRoute
      50 (some 10)
  exact ⟨h1, h2 (by decide) (by decide) (by decide) (by decide) (by decide) (by decide),
    h3 10 rfl⟩

/-- C2: a route whose AQI points contain zero valid (non-null, numeric)
readings scores exactly `{aqi: 0, score: 0, category: "Unknown - No Data"}`
— never 100. -/
theorem aqi_no_data_floor (aqiData : RouteAQIResult)
    (h : validAQIValues aqiData.points = []) :
    calculateAQIScore aqiData =
      { aqi := 0, score := 0, category := "Unknown - No Data" } := by
  unfold calculateAQIScore
  rw [h]
  rfl

/-- Witness for C2: a concrete route whose points are a null reading and a
reading with an undefined `aqi` field. -/
theorem aqi_no_data_floor_witness :
    calculateAQIScore noDataAQIRoute =
      { aqi := 0, score := 0, category := "Unknown - No Data" } :=
  aqi_no_data_floor noDataAQIRoute (by decide)

theorem areAqiPieces_antitone {a b : ℚ} (hab : a ≤ b) :
    aqiScoreOfAvg b ≤ aqiScoreOfAvg a := by
  unfold aqiScoreOfAvg
  split_ifs <;>
    first
      | linarith
      | (exfalso; linarith)
      | (exact max_le_max le_rfl (by linarith))
      | (exact max_le (by linarith) (by linarith))

/-- C6: the AQI-to-score mapping is non-increasing across its whole domain,
bracket boundaries included: for average AQI values `a1 < a2` (each from a
route with one valid reading) the score assigned to `a1` is at least the
score assigned to `a2`. -/
theorem aqi_score_antitone (a1 a2 : ℚ) (h : a1 < a2) :
    (calculateAQIScore (singleAQIRoute a2)).score ≤
      (calculateAQIScore (singleAQIRoute a1)).score := by
  have hval : ∀ v : ℚ, (calculateAQIScore (singleAQIRoute v)).score =
      round1 (aqiScoreOfAvg v) := by
    intro v
    show round1 (aqiScoreOfAvg ([v].sum / (([v] : List ℚ).length : ℚ))) = round1 (aqiScoreOfAvg v)
    norm_num
  rw [hval a1, hval a2]
  exact round1_mono (areAqiPieces_antitone h.le)

/-- Witness for C6 at `a1 = 10 < a2 = 250`. -/
theorem aqi_score_antitone_witness :
    (calculateAQIScore (singleAQIRoute 250)).score ≤
      (calculateAQIScore (singleAQIRoute 10)).score :=
  aqi_score_antitone 10 250 (by norm_num)

/-! ## Breakpoint extractor (`breakPoint.compute.ts`) -/

/-- The 0.0001-degree tolerance of `areCoordinatesEqual`. -/
def TOLERANCE : ℚ := 1/10000

/-- Source `areCoordinatesEqual`: within tolerance on both axes. -/
def areCoordinatesEqual (coord1 coord2 : Coordinate) : Bool :=
  decide (|coord1.lat - coord2.lat| < TOLERANCE) &&
    decide (|coord1.lon - coord2.lon| < TOLERANCE)

/-- Source `calculateBreakpointCount`: the distance-based step function. -/
def calculateBreakpointCount (distance : ℚ) : ℕ :=
  if distance < 100 then 3
  else if 100 ≤ distance ∧ distance ≤ 500 then
    if distance < 300 then 3 else 4
  else
    if distance < 750 then 3 else 4

/-- Convert a GeoJSON `[lon, lat]` pair to `{lat, lon}`. -/
def coordOfPair (p : ℚ × ℚ) : Coordinate := { lat := p.2, lon := p.1 }

/-- The index expression `Math.floor(((i+1)/(count+1)) * totalCoords)` followed by the clamp
`Math.max(1, Math.min(index, totalCoords - 2))`. -/
def safeIndexAt (totalCoords count i : ℕ) : ℕ :=
  max 1 (min ((i + 1) * totalCoords / (count + 1)) (totalCoords - 2))

/-- The alternate-index probe order of the duplicate handler: offsets
1..9, `+offset` before `-offset`, keeping only in-bounds interior indices
and reading the coordinate there. -/
def probeCandidates (coordinates : List (ℚ × ℚ)) (safeIndex : ℕ) : List Coordinate :=
  ((List.range 9).flatMap fun k =>
      [(safeIndex : ℤ) + (k + 1), (safeIndex : ℤ) - (k + 1)]).filterMap fun altIndex =>
    if 0 < altIndex ∧ altIndex < (coordinates.length : ℤ) - 1 then
      (coordinates.get? altIndex.toNat).map coordOfPair
    else none

/-- The duplicate handler: first probe candidate not colliding with an
already-used coordinate, if any. -/
def findAlternative (coordinates : List (ℚ × ℚ)) (used : List Coordinate)
    (safeIndex : ℕ) : Option Coordinate :=
  (probeCandidates coordinates safeIndex).find? fun alt =>
    !(used.any fun u => areCoordinatesEqual alt u)

/-- One iteration of the `extractBreakpoints` loop; the state is the pair
(breakpoints pushed so far, shared used-coordinates list). -/
def extractStep (coordinates : List (ℚ × ℚ)) (count : ℕ)
    (st : List Coordinate × List Coordinate) (i : ℕ) :
    List Coordinate × List Coordinate :=
  let safeIndex := safeIndexAt coordinates.length count i
  match coordinates.get? safeIndex with
  | none => st
  | some p =>
    let coordinate := coordOfPair p
    if st.2.any (fun u => areCoordinatesEqual coordinate u) then
      match findAlternative coordinates st.2 safeIndex with
      | some alt => (st.1 ++ [alt], st.2 ++ [alt])
      | none => st
    else (st.1 ++ [coordinate], st.2 ++ [coordinate])

/-- Source `extractBreakpoints`: returns the breakpoints of one route together
with the updated shared used-coordinates list (the TypeScript version
mutates `usedCoordinates` in place). -/
def extractBreakpoints (coordinates : List (ℚ × ℚ)) (count : ℕ)
    (usedCoordinates : List Coordinate) : List Coordinate × List Coordinate :=
  if coordinates.length < 2 then ([], usedCoordinates)
  else (List.range count).foldl (extractStep coordinates count) ([], usedCoordinates)

/-- One candidate route as handed to `computeBreakpoints`. -/
structure RouteInput where
  distance : ℚ
  duration : ℚ
  routeGeometry : List (ℚ × ℚ)
deriving Repr, DecidableEq

/-- The per-route loop of `computeBreakpoints`, threading the shared
used-coordinates list; a geometry with fewer than 2 points throws. -/
def computeBreakpointsGo : List RouteInput → List Coordinate →
    Except String (List (List Coordinate))
  | [], _ => Except.ok []
  | route :: rest, used =>
    if route.routeGeometry.length < 2 then
      Except.error "Insufficient coordinates in route geometry (minimum 2 required)"
    else
      (computeBreakpointsGo rest
          (extractBreakpoints route.routeGeometry
            (calculateBreakpointCount route.distance) used).2).map
        fun tail =>
          (extractBreakpoints route.routeGeometry
            (calculateBreakpointCount route.distance) used).1 :: tail

/-- Source `computeBreakpoints`: validation plus the per-route loop. Each
route's breakpoints are returned as the ordered list of slots
`point_1..point_k`. -/
def computeBreakpoints (routes : List RouteInput) : Except String (List (List Coordinate)) :=
  if routes.length = 0 then Except.error "No routes provided"
  else if routes.length > 3 then Except.error "Maximum 3 routes allowed"
  else computeBreakpointsGo routes []

/-- The step function of the claim, by its words: `<100 → 3`;
`100–300 → 3`; `300–500 → 4`; `500–750 → 3`; `≥750 → 4` (boundary points
resolved as the enclosing brackets state them: 300 and 500 fall in the
`300–500 → 4` bracket). -/
def claimedBreakpointCount (d : ℚ) : ℕ :=
  if d < 100 then 3
  else if d < 300 then 3
  else if d ≤ 500 then 4
  else if d < 750 then 3
  else 4

/-- The main-path candidate coordinate of each loop iteration
(used to state the no-collision hypothesis of C3). -/
def mainCandidates (coordinates : List (ℚ × ℚ)) (count : ℕ) : List Coordinate :=
  (List.range count).map fun i =>
    coordOfPair ((coordinates.get? (safeIndexAt coordinates.length count i)).getD (0, 0))

/-- Pairwise non-collision under the 0.0001-degree tolerance. -/
def PairwiseFar (l : List Coordinate) : Prop :=
  l.Pairwise fun a b => areCoordinatesEqual a b = false

theorem areCoordinatesEqual_symm (a b : Coordinate) :
    areCoordinatesEqual a b = areCoordinatesEqual b a := by
  simp only [areCoordinatesEqual, abs_sub_comm]

theorem safeIndexAt_lt {tc : ℕ} (h : 2 ≤ tc) (count i : ℕ) :
    safeIndexAt tc count i < tc := by
  unfold safeIndexAt
  generalize (i + 1) * tc / (count + 1) = q
  omega

theorem safeIndexAt_bounds {tc : ℕ} (h : 3 ≤ tc) (count i : ℕ) :
    1 ≤ safeIndexAt tc count i ∧ safeIndexAt tc count i + 1 < tc := by
  unfold safeIndexAt
  generalize (i + 1) * tc / (count + 1) = q
  omega

theorem calculateBreakpointCount_eq_claimed (d : ℚ) :
    calculateBreakpointCount d = claimedBreakpointCount d := by
  unfold calculateBreakpointCount claimedBreakpointCount
  rcases lt_or_le d 100 with h1 | h1
  · simp [h1]
  · have h1n : ¬ d < 100 := not_lt.mpr h1
    rcases le_or_lt d 500 with h2 | h2
    · have hmid : 100 ≤ d ∧ d ≤ 500 := ⟨h1, h2⟩
      rcases lt_or_le d 300 with h3 | h3
      · simp [h1n, hmid, h3]
      · simp [h1n, hmid, not_lt.mpr h3, h2]
    · have hmid : ¬ (100 ≤ d ∧ d ≤ 500) := by
        rintro ⟨hc1, hc2⟩
        linarith
      have h3 : ¬ d < 300 := by linarith
      have h4 : ¬ d ≤ 500 := not_le.mpr h2
      simp [h1n, hmid, h3, h4]

theorem mainCandidates_length (coordinates : List (ℚ × ℚ)) (count : ℕ) :
    (mainCandidates coordinates count).length = count := by
  simp [mainCandidates]

theorem mainCandidates_get? (coordinates : List (ℚ × ℚ)) {count m : ℕ} (hm : m < count) :
    (mainCandidates coordinates count).get? m =
      some (coordOfPair
        ((coordinates.get? (safeIndexAt coordinates.length count m)).getD (0, 0))) := by
  unfold mainCandidates
  rw [List.get?_map, List.get?_range hm]
  rfl

theorem extract_fold_no_collision (coordinates : List (ℚ × ℚ)) (count : ℕ)
    (hlen : 2 ≤ coordinates.length)
    (hfar : PairwiseFar (mainCandidates coordinates count)) :
    ∀ m, m ≤ count →
      (List.range m).foldl (extractStep coordinates count) ([], []) =
        ((mainCandidates coordinates count).take m,
          (mainCandidates coordinates count).take m) := by
  intro m
  induction m with
  | zero => intro _; simp
  | succ m ih =>
    intro hm
    have hmlt : m < count := hm
    rw [List.range_succ, List.foldl_append, ih (le_of_lt hmlt), List.foldl_cons,
      List.foldl_nil]
    have hsi : safeIndexAt coordinates.length count m < coordinates.length :=
      safeIndexAt_lt hlen count m
    obtain ⟨p, hp⟩ : ∃ p, coordinates.get? (safeIndexAt coordinates.length count m) = some p := by
      rw [List.get?_eq_get hsi]
      exact ⟨_, rfl⟩
    have hcand : (mainCandidates coordinates count).get? m = some (coordOfPair p) := by
      rw [mainCandidates_get? coordinates hmlt, hp]
      rfl
    have htake : (mainCandidates coordinates count).take (m + 1) =
        (mainCandidates coordinates count).take m ++ [coordOfPair p] := by
      rw [List.take_succ, ← List.get?_eq_getElem?, hcand]
      rfl
    have hpw : ((mainCandidates coordinates count).take (m + 1)).Pairwise
        fun a b => areCoordinatesEqual a b = false :=
      List.Pairwise.sublist (List.take_sublist _ _) hfar
    rw [htake] at hpw
    have hcross := (List.pairwise_append.mp hpw).2.2
    have hdup : (((mainCandidates coordinates count).take m).any
        fun u => areCoordinatesEqual (coordOfPair p) u) = false := by
      rw [List.any_eq_false]
      intro u hu
      have h1 : areCoordinatesEqual u (coordOfPair p) = false :=
        hcross u hu (coordOfPair p) (List.mem_singleton.mpr rfl)
      rw [areCoordinatesEqual_symm] at h1
      simp [h1]
    show extractStep coordinates count _ m = _
    simp only [extractStep, hp, hdup, Bool.false_eq_true, if_false]
    rw [htake]

theorem extract_no_collision (coordinates : List (ℚ × ℚ)) (count : ℕ)
    (hlen : 2 ≤ coordinates.length)
    (hfar : PairwiseFar (mainCandidates coordinates count)) :
    extractBreakpoints coordinates count [] =
      (mainCandidates coordinates count, mainCandidates coordinates count) := by
  unfold extractBreakpoints
  rw [if_neg (not_lt.mpr hlen),
    extract_fold_no_collision coordinates count hlen hfar count le_rfl,
    List.take_of_length_le (le_of_eq (mainCandidates_length coordinates count))]

/-- C3: on a single-route input whose geometry produces no deduplication
collisions (the per-slot main candidates are pairwise farther apart than
the tolerance), `computeBreakpoints` returns exactly the candidate list,
and its size is the claimed step function of the distance:
`<100 → 3`; `100–300 → 3`; `300–500 → 4`; `500–750 → 3`; `≥750 → 4`. -/
theorem breakpoint_count_step_function (route : RouteInput)
    (hlen : 2 ≤ route.routeGeometry.length)
    (hfar : PairwiseFar
      (mainCandidates route.routeGeometry (calculateBreakpointCount route.distance))) :
    computeBreakpoints [route] = Except.ok
      [mainCandidates route.routeGeometry (calculateBreakpointCount route.distance)] ∧
    (mainCandidates route.routeGeometry (calculateBreakpointCount route.distance)).length =
      claimedBreakpointCount route.distance := by
  constructor
  · show computeBreakpoints [route] = _
    unfold computeBreakpoints computeBreakpointsGo
    rw [if_neg (by simp), if_neg (by simp), if_neg (not_lt.mpr hlen),
      extract_no_collision route.routeGeometry (calculateBreakpointCount route.distance)
        hlen hfar]
    rfl
  · rw [mainCandidates_length, calculateBreakpointCount_eq_claimed]

/-- Concrete single-route input for the C3 witness: distance 50 km
(3 breakpoints), six well-separated geometry points. -/
def c3Route : RouteInput :=
  { distance := 50, duration := 10
    routeGeometry := [(0, 0), (10, 10), (20, 20), (30, 30), (40, 40), (50, 50)] }

/-- Witness for C3 at `c3Route`: indices 1, 3, 4 are chosen and the
breakpoint count is `claimedBreakpointCount 50 = 3`. -/
theorem breakpoint_count_step_function_witness :
    computeBreakpoints [c3Route] = Except.ok
      [mainCandidates c3Route.routeGeometry (calculateBreakpointCount c3Route.distance)] ∧
    (mainCandidates c3Route.routeGeometry (calculateBreakpointCount c3Route.distance)).length =
      claimedBreakpointCount c3Route.distance :=
  breakpoint_count_step_function c3Route (by decide)
    (by unfold PairwiseFar; decide)

theorem extractStep_snd_eq (coordinates : List (ℚ × ℚ)) (count : ℕ)
    (used0 : List Coordinate) (st : List Coordinate × List Coordinate) (i : ℕ)
    (h : st.2 = used0 ++ st.1) :
    (extractStep coordinates count st i).2 =
      used0 ++ (extractStep coordinates count st i).1 := by
  cases hget : coordinates.get? (safeIndexAt coordinates.length count i) with
  | none =>
    simp only [extractStep, hget]
    exact h
  | some p =>
    simp only [extractStep, hget]
    split_ifs with hdup
    · cases hf : findAlternative coordinates st.2 (safeIndexAt coordinates.length count i) with
      | none =>
        simp only [hf]
        exact h
      | some alt =>
        simp only [hf]
        rw [h, List.append_assoc]
    · rw [h, List.append_assoc]

theorem extract_fold_snd_eq (coordinates : List (ℚ × ℚ)) (count : ℕ) (l : List ℕ) :
    ∀ (st : List Coordinate × List Coordinate) (used0 : List Coordinate),
      st.2 = used0 ++ st.1 →
      (l.foldl (extractStep coordinates count) st).2 =
        used0 ++ (l.foldl (extractStep coordinates count) st).1 := by
  induction l with
  | nil => intro st used0 h; simpa using h
  | cons a l ih =>
    intro st used0 h
    rw [List.foldl_cons]
    exact ih _ _ (extractStep_snd_eq coordinates count used0 st a h)

theorem extractBreakpoints_snd (coordinates : List (ℚ × ℚ)) (count : ℕ)
    (used : List Coordinate) :
    (extractBreakpoints coordinates count used).2 =
      used ++ (extractBreakpoints coordinates count used).1 := by
  unfold extractBreakpoints
  split_ifs
  · simp
  · exact extract_fold_snd_eq coordinates count (List.range count) ([], used) used (by simp)

theorem pairwise_push {used : List Coordinate} {c : Coordinate}
    (h : PairwiseFar used)
    (hany : (used.any fun u => areCoordinatesEqual c u) = false) :
    PairwiseFar (used ++ [c]) := by
  unfold PairwiseFar at *
  rw [List.pairwise_append]
  refine ⟨h, List.pairwise_singleton _ _, ?_⟩
  intro a ha b hb
  rw [List.mem_singleton] at hb
  subst hb
  have h1 := List.any_eq_false.mp hany a ha
  rw [areCoordinatesEqual_symm]
  simpa using h1

theorem extractStep_pairwise (coordinates : List (ℚ × ℚ)) (count : ℕ)
    (st : List Coordinate × List Coordinate) (i : ℕ)
    (h : PairwiseFar st.2) : PairwiseFar (extractStep coordinates count st i).2 := by
  cases hget : coordinates.get? (safeIndexAt coordinates.length count i) with
  | none =>
    simp only [extractStep, hget]
    exact h
  | some p =>
    simp only [extractStep, hget]
    split_ifs with hdup
    · cases hf : findAlternative coordinates st.2 (safeIndexAt coordinates.length count i) with
      | none =>
        simp only [hf]
        exact h
      | some alt =>
        simp only [hf]
        have hpred := List.find?_some hf
        have hany : (st.2.any fun u => areCoordinatesEqual alt u) = false := by
          simpa using hpred
        exact pairwise_push h hany
    · have hany : (st.2.any fun u => areCoordinatesEqual (coordOfPair p) u) = false := by
        simpa using hdup
      exact pairwise_push h hany

theorem extract_fold_pairwise (coordinates : List (ℚ × ℚ)) (count : ℕ) (l : List ℕ) :
    ∀ (st : List Coordinate × List Coordinate), PairwiseFar st.2 →
      PairwiseFar (l.foldl (extractStep coordinates count) st).2 := by
  induction l with
  | nil => intro st h; simpa using h
  | cons a l ih =>
    intro st h
    rw [List.foldl_cons]
    exact ih _ (extractStep_pairwise coordinates count st a h)

theorem extract_pairwise (coordinates : List (ℚ × ℚ)) (count : ℕ)
    (used : List Coordinate) (h : PairwiseFar used) :
    PairwiseFar (extractBreakpoints coordinates count used).2 := by
  unfold extractBreakpoints
  split_ifs
  · exact h
  · exact extract_fold_pairwise coordinates count (List.range count) ([], used) h

theorem computeBreakpointsGo_pairwise :
    ∀ (routes : List RouteInput) (used : List Coordinate) (res : List (List Coordinate)),
      computeBreakpointsGo routes used = Except.ok res → PairwiseFar used →
      PairwiseFar (used ++ res.join) := by
  intro routes
  induction routes with
  | nil =>
    intro used res h hp
    simp only [computeBreakpointsGo, Except.ok.injEq] at h
    subst h
    simpa using hp
  | cons route rest ih =>
    intro used res h hp
    unfold computeBreakpointsGo at h
    split_ifs at h
    cases hgo : computeBreakpointsGo rest
        (extractBreakpoints route.routeGeometry
          (calculateBreakpointCount route.distance) used).2 with
    | error e => rw [hgo] at h; simp [Except.map] at h
    | ok tail =>
      rw [hgo] at h
      simp only [Except.map, Except.ok.injEq] at h
      subst h
      have h2 := extractBreakpoints_snd route.routeGeometry
        (calculateBreakpointCount route.distance) used
      have hpE := extract_pairwise route.routeGeometry
        (calculateBreakpointCount route.distance) used hp
      have h3 := ih _ tail hgo hpE
      rw [h2, List.append_assoc] at h3
      simpa using h3

/-- C4: for every request `computeBreakpoints` accepts, the breakpoints
of all routes taken together are pairwise distinct: no two of them are
within 0.0001 degrees of each other on both the lat and the lon axis. -/
theorem breakpoints_globally_unique (routes : List RouteInput)
    (res : List (List Coordinate)) (h : computeBreakpoints routes = Except.ok res) :
    PairwiseFar res.join := by
  unfold computeBreakpoints at h
  split_ifs at h
  have := computeBreakpointsGo_pairwise routes [] res h (List.Pairwise.nil)
  simpa using this

/-- First route of the C4 witness request. -/
def c4RouteA : RouteInput :=
  { distance := 50, duration := 10
    routeGeometry := [(0, 0), (1, 0), (2, 0), (3, 0), (4, 0), (5, 0)] }

/-- Second route of the C4 witness request. -/
def c4RouteB : RouteInput :=
  { distance := 50, duration := 10
    routeGeometry := [(0, 1), (1, 1), (2, 1), (3, 1), (4, 1), (5, 1)] }

/-- Witness for C4 on a concrete two-route request. -/
theorem breakpoints_globally_unique_witness :
    PairwiseFar
      ([[⟨0, 1⟩, ⟨0, 3⟩, ⟨0, 4⟩], [⟨1, 1⟩, ⟨1, 3⟩, ⟨1, 4⟩]] :
        List (List Coordinate)).join :=
  breakpoints_globally_unique [c4RouteA, c4RouteB] _ (by rfl)

/-- A coordinate drawn from an interior vertex of the geometry: some
index `k` strictly between 0 and `len - 1` holds its `[lon, lat]` pair. -/
def InteriorOf (coordinates : List (ℚ × ℚ)) (c : Coordinate) : Prop :=
  ∃ k, 1 ≤ k ∧ k + 1 < coordinates.length ∧ coordinates.get? k = some (c.lon, c.lat)

theorem probeCandidates_interior (coordinates : List (ℚ × ℚ)) (si : ℕ)
    {c : Coordinate} (hc : c ∈ probeCandidates coordinates si) :
    InteriorOf coordinates c := by
  unfold probeCandidates at hc
  rw [List.mem_filterMap] at hc
  obtain ⟨altIndex, hmem, hf⟩ := hc
  split_ifs at hf with hcond
  rw [Option.map_eq_some'] at hf
  obtain ⟨p, hp, hcp⟩ := hf
  subst hcp
  refine ⟨altIndex.toNat, by omega, by omega, ?_⟩
  rw [hp]
  rfl

theorem extractStep_interior (coordinates : List (ℚ × ℚ)) (count : ℕ)
    (st : List Coordinate × List Coordinate) (i : ℕ)
    (hlen3 : 3 ≤ coordinates.length)
    (h : ∀ c ∈ st.1, InteriorOf coordinates c) :
    ∀ c ∈ (extractStep coordinates count st i).1, InteriorOf coordinates c := by
  cases hget : coordinates.get? (safeIndexAt coordinates.length count i) with
  | none =>
    simp only [extractStep, hget]
    exact h
  | some p =>
    simp only [extractStep, hget]
    split_ifs with hdup
    · cases hf : findAlternative coordinates st.2 (safeIndexAt coordinates.length count i) with
      | none =>
        simp only [hf]
        exact h
      | some alt =>
        simp only [hf]
        intro c hc
        rw [List.mem_append] at hc
        rcases hc with hc | hc
        · exact h c hc
        · rw [List.mem_singleton] at hc
          subst hc
          exact probeCandidates_interior coordinates _
            (List.mem_of_find?_eq_some hf)
    · intro c hc
      rw [List.mem_append] at hc
      rcases hc with hc | hc
      · exact h c hc
      · rw [List.mem_singleton] at hc
        subst hc
        obtain ⟨hb1, hb2⟩ := safeIndexAt_bounds hlen3 count i
        exact ⟨safeIndexAt coordinates.length count i, hb1, hb2, by rw [hget]; rfl⟩

theorem extract_fold_interior (coordinates : List (ℚ × ℚ)) (count : ℕ)
    (hlen3 : 3 ≤ coordinates.length) (l : List ℕ) :
    ∀ (st : List Coordinate × List Coordinate),
      (∀ c ∈ st.1, InteriorOf coordinates c) →
      ∀ c ∈ (l.foldl (extractStep coordinates count) st).1, InteriorOf coordinates c := by
  induction l with
  | nil => intro st h; simpa using h
  | cons a l ih =>
    intro st h
    rw [List.foldl_cons]
    exact ih _ (extractStep_interior coordinates count st a hlen3 h)

theorem extract_interior (coordinates : List (ℚ × ℚ)) (count : ℕ)
    (used : List Coordinate) (hlen3 : 3 ≤ coordinates.length) :
    ∀ c ∈ (extractBreakpoints coordinates count used).1, InteriorOf coordinates c := by
  unfold extractBreakpoints
  split_ifs
  · simp
  · exact extract_fold_interior coordinates count hlen3 (List.range count) ([], used)
      (by simp)

theorem computeBreakpointsGo_get :
    ∀ (routes : List RouteInput) (used : List Coordinate) (res : List (List Coordinate)),
      computeBreakpointsGo routes used = Except.ok res →
      ∀ (i : ℕ) (route : RouteInput) (bps : List Coordinate),
        routes.get? i = some route → res.get? i = some bps →
        ∃ u0, bps = (extractBreakpoints route.routeGeometry
          (calculateBreakpointCount route.distance) u0).1 := by
  intro routes
  induction routes with
  | nil =>
    intro used res h i route bps hroute _
    simp at hroute
  | cons r rest ih =>
    intro used res h i route bps hroute hbps
    unfold computeBreakpointsGo at h
    split_ifs at h
    cases hgo : computeBreakpointsGo rest
        (extractBreakpoints r.routeGeometry
          (calculateBreakpointCount r.distance) used).2 with
    | error e => rw [hgo] at h; simp [Except.map] at h
    | ok tail =>
      rw [hgo] at h
      simp only [Except.map, Except.ok.injEq] at h
      subst h
      cases i with
      | zero =>
        simp only [List.get?] at hroute hbps
        obtain rfl := Option.some.inj hroute
        exact ⟨used, (Option.some.inj hbps).symm⟩
      | succ n =>
        simp only [List.get?] at hroute hbps
        exact ih _ tail hgo n route bps hroute hbps

/-- C5 is refuted by a 2-point geometry: `computeBreakpoints` accepts it
(2 coordinate pairs) and the clamp `max(1, min(index, len-2))` lands on
index 1 = len-1, so the single extracted breakpoint is exactly the
route's last geometry vertex `[1, 1]`. -/
theorem breakpoint_endpoint_counterexample :
    computeBreakpoints
        [{ distance := 50, duration := 10, routeGeometry := [(0, 0), (1, 1)] }] =
      Except.ok [[{ lat := 1, lon := 1 }]] ∧
    ([(0, 0), (1, 1)] : List (ℚ × ℚ)).getLast? = some (1, 1) ∧
    coordOfPair (1, 1) = { lat := 1, lon := 1 } :=
  ⟨by rfl, by rfl, rfl⟩

/-- C5 amended: for every accepted route whose geometry has at least 3
points, every extracted breakpoint is drawn from a geometry index
strictly between 0 and len-1 (the clamp keeps it in `[1, len-2]` and the
probe alternatives stay interior); with exactly 2 points the clamped
index is 1 = len-1, the last vertex. -/
theorem breakpoints_interior (routes : List RouteInput) (res : List (List Coordinate))
    (h : computeBreakpoints routes = Except.ok res)
    (i : ℕ) (route : RouteInput) (bps : List Coordinate)
    (hroute : routes.get? i = some route) (hbps : res.get? i = some bps)
    (hlen3 : 3 ≤ route.routeGeometry.length) :
    ∀ c ∈ bps, InteriorOf route.routeGeometry c := by
  unfold computeBreakpoints at h
  split_ifs at h
  obtain ⟨u0, hb⟩ := computeBreakpointsGo_get routes [] res h i route bps hroute hbps
  subst hb
  exact extract_interior route.routeGeometry (calculateBreakpointCount route.distance)
    u0 hlen3

/-- Witness for the amended C5 on `c3Route`: the first extracted
breakpoint comes from an interior vertex. -/
theorem breakpoints_interior_witness :
    InteriorOf c3Route.routeGeometry ⟨10, 10⟩ :=
  breakpoints_interior [c3Route] [[⟨10, 10⟩, ⟨30, 30⟩, ⟨40, 40⟩]] (by rfl)
    0 c3Route [⟨10, 10⟩, ⟨30, 30⟩, ⟨40, 40⟩] (by rfl) (by rfl) (by decide)
    ⟨10, 10⟩ (by decide)

/-! ## Environmental fetchers (`aqi.compute.ts`, `weather.compute.ts`) -/

/-- The outcome of one HTTP attempt of the AQI fetcher, as the `try`
block observes it: a parsed reading, a non-2xx response, a 2xx response
whose payload status is not `"ok"`, or a thrown error (network failure
or timeout abort). -/
inductive FetchOutcome where
  | ok (data : AQIData)
  | httpError (status : ℕ)
  | invalidStatus
  | networkError
  | timeout
deriving Repr, DecidableEq

/-- Constant `AQI_MAX_RETRIES` from `aqi.compute.ts`. -/
def AQI_MAX_RETRIES : ℕ := 2

/-- Whether an outcome is a thrown error (lands in the `catch` block). -/
def FetchOutcome.thrown : FetchOutcome → Bool
  | FetchOutcome.networkError => true
  | FetchOutcome.timeout => true
  | _ => false

/-- The retry loop of `fetchAQIForPoint` against an oracle giving each
attempt's outcome. Returns the reading (`none` = null recorded), the
number of attempts made, and the backoff delays (ms) slept between
attempts. A non-2xx response and an invalid payload `return null` from
inside the loop; only thrown errors fall through to the retry logic. -/
def fetchAQILoop (oracle : ℕ → FetchOutcome) (attempt : ℕ) (fuel : ℕ)
    (delays : List ℕ) : Option AQIData × ℕ × List ℕ :=
  match fuel with
  | 0 => (none, attempt, delays)
  | fuel + 1 =>
    match oracle attempt with
    | FetchOutcome.ok d => (some d, attempt + 1, delays)
    | FetchOutcome.httpError _ => (none, attempt + 1, delays)
    | FetchOutcome.invalidStatus => (none, attempt + 1, delays)
    | FetchOutcome.networkError =>
      if fuel = 0 then (none, attempt + 1, delays)
      else fetchAQILoop oracle (attempt + 1) fuel (delays ++ [500 * (attempt + 1)])
    | FetchOutcome.timeout =>
      if fuel = 0 then (none, attempt + 1, delays)
      else fetchAQILoop oracle (attempt + 1) fuel (delays ++ [500 * (attempt + 1)])

/-- Source `fetchAQIForPoint`: up to `AQI_MAX_RETRIES + 1` attempts. -/
def fetchAQIForPoint (oracle : ℕ → FetchOutcome) : Option AQIData × ℕ × List ℕ :=
  fetchAQILoop oracle 0 (AQI_MAX_RETRIES + 1) []

/-- The outcome of the weather fetcher's single HTTP attempt. -/
inductive WeatherOutcome where
  | ok (main : WeatherMain)
  | httpError (status : ℕ)
  | noMain
  | networkError
  | timeout
deriving Repr, DecidableEq

/-- Source `fetchWeatherForPoint`: one attempt, no retry loop; every failure
mode records a null reading. The second component is the number of
attempts made, always 1. -/
def fetchWeatherForPoint (outcome : WeatherOutcome) : Option WeatherMain × ℕ :=
  match outcome with
  | WeatherOutcome.ok m => (some m, 1)
  | WeatherOutcome.httpError _ => (none, 1)
  | WeatherOutcome.noMain => (none, 1)
  | WeatherOutcome.networkError => (none, 1)
  | WeatherOutcome.timeout => (none, 1)

/-- C7 counterexample: a non-2xx provider response is not retried. The
AQI fetcher records the null reading after a single attempt, although its
retry bound is 2 — refuting that every failure kind is retried up to the
bound. -/
theorem fetch_non2xx_no_retry_counterexample :
    fetchAQIForPoint (fun _ => FetchOutcome.httpError 500) = (none, 1, []) ∧
    AQI_MAX_RETRIES = 2 :=
  ⟨rfl, rfl⟩

theorem thrown_cases {o : FetchOutcome} (h : o.thrown = true) :
    o = FetchOutcome.networkError ∨ o = FetchOutcome.timeout := by
  cases o <;> simp [FetchOutcome.thrown] at h ⊢

/-- C7 amended: only thrown failures (network error, timeout abort) are
retried, with increasing 500 ms × attempt backoff, up to the AQI
fetcher's bound of 2 retries, after which the point is recorded null;
a non-2xx response or an invalid provider payload records the null
reading immediately, without any retry; and the weather fetcher makes
exactly one attempt for every outcome. -/
theorem fetch_retry_semantics (oracle : ℕ → FetchOutcome) :
    ((∀ i, (oracle i).thrown = true) →
      fetchAQIForPoint oracle = (none, AQI_MAX_RETRIES + 1, [500, 1000])) ∧
    (∀ s, oracle 0 = FetchOutcome.httpError s →
      fetchAQIForPoint oracle = (none, 1, [])) ∧
    (oracle 0 = FetchOutcome.invalidStatus →
      fetchAQIForPoint oracle = (none, 1, [])) ∧
    (∀ w, (fetchWeatherForPoint w).2 = 1) := by
  refine ⟨?_, ?_, ?_, ?_⟩
  · intro h
    rcases thrown_cases (h 0) with ho0 | ho0 <;>
      rcases thrown_cases (h 1) with ho1 | ho1 <;>
        rcases thrown_cases (h 2) with ho2 | ho2 <;>
          simp [fetchAQIForPoint, fetchAQILoop, AQI_MAX_RETRIES, ho0, ho1, ho2]
  · intro s h
    simp [fetchAQIForPoint, fetchAQILoop, AQI_MAX_RETRIES, h]
  · intro h
    simp [fetchAQIForPoint, fetchAQILoop, AQI_MAX_RETRIES, h]
  · intro w
    cases w <;> rfl

/-- Witness for the amended C7: an oracle that always throws a network
error exhausts all three attempts with backoffs 500 ms then 1000 ms. -/
theorem fetch_retry_semantics_witness :
    fetchAQIForPoint (fun _ => FetchOutcome.networkError) =
      (none, AQI_MAX_RETRIES + 1, [500, 1000]) :=
  (fetch_retry_semantics (fun _ => FetchOutcome.networkError)).1 (fun _ => rfl)

/-! ## Score controller with result cache (`score.controller.ts`) -/

/-- One route of the score-compute request body; the optional fields
model the `route.distance == null` style validation checks. -/
structure RouteData where
  distance : Option ℚ
  duration : Option ℚ
  routeGeometry : Option (List (ℚ × ℚ))
  travelMode : String
  lastComputedScore : Option ℚ
deriving Repr, DecidableEq

/-- The per-route validation of `getScoreController`. -/
def routeDataValid (r : RouteData) : Bool :=
  r.distance.isSome && r.duration.isSome && r.routeGeometry.isSome

/-- The validation for-loop: index of the first invalid route, if any. -/
def firstInvalidIndex : List RouteData → ℕ → Option ℕ
  | [], _ => none
  | r :: rest, i =>
    if routeDataValid r then firstInvalidIndex rest (i + 1) else some i

/-- A validated route as passed to `computeBreakpoints`. -/
def toRouteInput (r : RouteData) : RouteInput :=
  { distance := r.distance.getD 0
    duration := r.duration.getD 0
    routeGeometry := r.routeGeometry.getD [] }

/-- One route's contribution to the score-cache key: its geometry
coordinates, travel mode and traffic value (`traffic[i] || 0`). The
SHA-256 over the JSON of this list is modelled by the list itself, a
deterministic fingerprint of the same data. -/
structure ScoreCacheKeyEntry where
  coords : List (ℚ × ℚ)
  mode : String
  traffic : ℚ
deriving Repr, DecidableEq

/-- Source `generateScoreCacheKey` from `score.controller.ts`. -/
def generateScoreCacheKey (routes : List RouteData) (traffic : List ℚ) :
    List ScoreCacheKeyEntry :=
  routes.enum.map fun p =>
    { coords := p.2.routeGeometry.getD []
      mode := p.2.travelMode
      traffic := (traffic.get? p.1).getD 0 }

/-- The outcome of the `redis.get` call: a live entry, a miss, or a
thrown read error. -/
inductive CacheReadResult (α : Type) where
  | hit (value : α)
  | miss
  | failure
deriving Repr, DecidableEq

/-- One iteration of the controller's scoring map: `weatherData[index]`
missing throws (`none`); missing AQI data falls back to an empty result;
`traffic[index] || 0` feeds the traffic curve. -/
def scoreRoute (route : RouteData) (index : ℕ) (traffic : List ℚ)
    (weatherData : List RouteWeatherResult) (aqiData : List RouteAQIResult)
    (trafficScoreFn : ℚ → ℚ) : Option RouteScoreOut :=
  match weatherData.get? index with
  | none => none
  | some routeWeather =>
    some (computeRouteScore index (route.distance.getD 0) (route.duration.getD 0)
      route.travelMode routeWeather
      ((aqiData.get? index).getD
        { routeIndex := index, points := [], totalPoints := 0, successfulFetches := 0 })
      (trafficScoreFn ((traffic.get? index).getD 0))
      route.lastComputedScore)

/-- The controller's possible responses. `cachedResponse` is the cached
payload spread into the body with `cached: true` and a fresh `searchId`. -/
inductive ControllerResponse (α : Type) where
  | badRequest (message : String)
  | cachedResponse (payload : α) (searchId : String)
  | freshResponse (scores : List RouteScoreOut) (searchId : String)
  | serverError
deriving DecidableEq

/-- Source `getScoreController` of `score.controller.ts` (the score-cache
variant): validation, cache probe keyed by the request fingerprint, and
on miss or read failure the fresh pipeline. The second component records
whether the environmental fetchers (`computeWeather` / `computeAQI`)
were invoked. The fetch results and the real-valued traffic curve are
supplied as oracles; `freshSearchId` is the newly minted UUID. -/
def getScoreController {α : Type} (routes : List RouteData) (traffic : List ℚ)
    (cache : List ScoreCacheKeyEntry → CacheReadResult α)
    (freshSearchId : String)
    (weatherData : List RouteWeatherResult) (aqiData : List RouteAQIResult)
    (trafficScoreFn : ℚ → ℚ) : ControllerResponse α × Bool :=
  if routes.length = 0 then
    (ControllerResponse.badRequest
      "Invalid request. The routes array is required and cannot be empty.", false)
  else if routes.length > 3 then
    (ControllerResponse.badRequest "Maximum 3 routes allowed.", false)
  else
    match firstInvalidIndex routes 0 with
    | some i =>
      (ControllerResponse.badRequest
        ("Invalid route data at index " ++ toString i ++ ". Missing required fields."),
        false)
    | none =>
      match cache (generateScoreCacheKey routes traffic) with
      | CacheReadResult.hit v =>
        match computeBreakpoints (routes.map toRouteInput) with
        | Except.error _ => (ControllerResponse.serverError, false)
        | Except.ok _ => (ControllerResponse.cachedResponse v freshSearchId, false)
      | _ =>
        match computeBreakpoints (routes.map toRouteInput) with
        | Except.error _ => (ControllerResponse.serverError, false)
        | Except.ok _ =>
          match routes.enum.mapM
              (fun p => scoreRoute p.2 p.1 traffic weatherData aqiData trafficScoreFn) with
          | none => (ControllerResponse.serverError, true)
          | some scores => (ControllerResponse.freshResponse scores freshSearchId, true)

theorem firstInvalidIndex_none :
    ∀ (l : List RouteData) (i : ℕ), (∀ r ∈ l, routeDataValid r = true) →
      firstInvalidIndex l i = none := by
  intro l
  induction l with
  | nil => intro i _; rfl
  | cons r rest ih =>
    intro i h
    have hr := h r (List.mem_cons_self r rest)
    simp only [firstInvalidIndex, hr, if_true]
    exact ih (i + 1) fun x hx => h x (List.mem_cons_of_mem r hx)

theorem computeBreakpointsGo_isOk :
    ∀ (rs : List RouteInput) (used : List Coordinate),
      (∀ r ∈ rs, 2 ≤ r.routeGeometry.length) →
      ∃ res, computeBreakpointsGo rs used = Except.ok res := by
  intro rs
  induction rs with
  | nil => intro used _; exact ⟨[], rfl⟩
  | cons r rest ih =>
    intro used h
    have hr := h r (List.mem_cons_self r rest)
    obtain ⟨tail, htail⟩ := ih
      (extractBreakpoints r.routeGeometry (calculateBreakpointCount r.distance) used).2
      fun x hx => h x (List.mem_cons_of_mem r hx)
    refine ⟨(extractBreakpoints r.routeGeometry
      (calculateBreakpointCount r.distance) used).1 :: tail, ?_⟩
    unfold computeBreakpointsGo
    rw [if_neg (not_lt.mpr hr), htail]
    rfl

theorem computeBreakpoints_isOk (rs : List RouteInput)
    (hne : rs.length ≠ 0) (hle : rs.length ≤ 3)
    (h : ∀ r ∈ rs, 2 ≤ r.routeGeometry.length) :
    ∃ res, computeBreakpoints rs = Except.ok res := by
  obtain ⟨res, hres⟩ := computeBreakpointsGo_isOk rs [] h
  exact ⟨res, by unfold computeBreakpoints; rw [if_neg hne, if_neg (not_lt.mpr hle)]; exact hres⟩

/-- C8: under passing validation, a live score-cache entry for the
request fingerprint makes the controller answer with the cached payload
and the freshly minted `searchId`, without invoking the weather or AQI
fetcher; and a cache read failure behaves exactly like a miss, running
the fresh pipeline. -/
theorem cache_hit_skips_pipeline {α : Type} (routes : List RouteData) (traffic : List ℚ)
    (cache : List ScoreCacheKeyEntry → CacheReadResult α) (freshSearchId : String)
    (weatherData : List RouteWeatherResult) (aqiData : List RouteAQIResult)
    (trafficScoreFn : ℚ → ℚ) (v : α)
    (hne : routes ≠ []) (hle : routes.length ≤ 3)
    (hvalid : ∀ r ∈ routes, routeDataValid r = true)
    (hgeom : ∀ r ∈ routes, 2 ≤ (r.routeGeometry.getD []).length) :
    (cache (generateScoreCacheKey routes traffic) = CacheReadResult.hit v →
      getScoreController routes traffic cache freshSearchId weatherData aqiData
          trafficScoreFn =
        (ControllerResponse.cachedResponse v freshSearchId, false)) ∧
    (cache (generateScoreCacheKey routes traffic) = CacheReadResult.failure →
      getScoreController routes traffic cache freshSearchId weatherData aqiData
          trafficScoreFn =
        getScoreController routes traffic (fun _ => CacheReadResult.miss) freshSearchId
          weatherData aqiData trafficScoreFn) := by
  have h0 : ¬ routes.length = 0 := fun hh => hne (List.length_eq_zero.mp hh)
  have h3 : ¬ routes.length > 3 := not_lt.mpr hle
  have hfind := firstInvalidIndex_none routes 0 hvalid
  obtain ⟨bres, hbres⟩ := computeBreakpoints_isOk (routes.map toRouteInput)
    (by simpa using h0) (by simpa using hle)
    (by
      intro x hx
      rw [List.mem_map] at hx
      obtain ⟨r, hr, rfl⟩ := hx
      exact hgeom r hr)
  constructor
  · intro hhit
    simp only [getScoreController, if_neg h0, if_neg h3, hfind, hhit, hbres]
  · intro hfail
    simp only [getScoreController, if_neg h0, if_neg h3, hfind, hfail, hbres]

/-- The single route of the C8 witness request. -/
def c8Route : RouteData :=
  { distance := some 50, duration := some 10
    routeGeometry := some [(0, 0), (1, 0), (2, 0), (3, 0), (4, 0), (5, 0)]
    travelMode := "driving", lastComputedScore := none }

/-- Witness for C8: with a cache that returns a hit for every key, the
controller returns the cached payload, `cached: true`, the fresh search
identifier, and the fetchers stay uninvoked. -/
theorem cache_hit_skips_pipeline_witness :
    getScoreController [c8Route] [] (fun _ => CacheReadResult.hit 42) "fresh-uuid"
        [] [] id =
      (ControllerResponse.cachedResponse 42 "fresh-uuid", false) :=
  (cache_hit_skips_pipeline [c8Route] [] (fun _ => CacheReadResult.hit 42) "fresh-uuid"
    [] [] id 42 (by decide) (by decide) (by decide) (by decide)).1 rfl

/-! ## Periodic rescoring scheduler (`computeData.scheduler.ts`) -/

/-- Observable events of the scheduler: an interval tick firing (its
handler's synchronous prefix checks and sets `_isRunning` atomically on
the single-threaded event loop), and a batch-scoring run settling, either
fulfilled (`ok = true`) or rejected (`ok = false`) — the `finally` block
runs in both cases. -/
inductive SchedEvent where
  | tick
  | finish (ok : Bool)
deriving Repr, DecidableEq

/-- Scheduler state: the `_isRunning` flag and the number of
batch-scoring runs currently in flight. -/
structure SchedState where
  isRunning : Bool
  activeRuns : ℕ
deriving Repr, DecidableEq

/-- One step of the scheduler transition system, from the tick handler in
`initScheduler`: a tick with `_isRunning` set returns immediately (no-op,
nothing queued); otherwise it sets the flag and starts a run. A finishing
run clears the flag in `finally`, success or failure alike; a spurious
finish with no active run is a no-op. -/
def schedStep (s : SchedState) : SchedEvent → SchedState
  | SchedEvent.tick =>
    if s.isRunning then s
    else { isRunning := true, activeRuns := s.activeRuns + 1 }
  | SchedEvent.finish _ =>
    if 0 < s.activeRuns then { isRunning := false, activeRuns := s.activeRuns - 1 }
    else s

/-- Initial scheduler state: flag clear, nothing running. -/
def schedInit : SchedState := { isRunning := false, activeRuns := 0 }

/-- The state after a sequence of events. -/
def schedRun (events : List SchedEvent) : SchedState :=
  events.foldl schedStep schedInit

theorem schedStep_invariant {s : SchedState}
    (h : s.activeRuns = if s.isRunning then 1 else 0) (e : SchedEvent) :
    (schedStep s e).activeRuns = if (schedStep s e).isRunning then 1 else 0 := by
  cases e with
  | tick =>
    by_cases hr : s.isRunning
    · simpa [schedStep, hr] using h
    · simp [schedStep, hr] at h ⊢
      omega
  | finish ok =>
    by_cases ha : 0 < s.activeRuns
    · have h1 : s.activeRuns = 1 := by
        by_cases hb : s.isRunning
        · simpa [hb] using h
        · rw [if_neg (by simpa using hb)] at h
          omega
      simp [schedStep, ha, h1]
    · simpa [schedStep, ha] using h

theorem schedFold_invariant :
    ∀ (l : List SchedEvent) (s : SchedState),
      s.activeRuns = (if s.isRunning then 1 else 0) →
      (l.foldl schedStep s).activeRuns =
        if (l.foldl schedStep s).isRunning then 1 else 0 := by
  intro l
  induction l with
  | nil => intro s h; simpa using h
  | cons e l ih =>
    intro s h
    rw [List.foldl_cons]
    exact ih _ (schedStep_invariant h e)

/-- C9: after any event sequence, at most one batch-scoring run is in
flight; a tick firing while `_isRunning` is set leaves the state
unchanged (skipped, not queued); and after a run finishes — fulfilled or
rejected — the flag is clear. -/
theorem scheduler_no_overlap (events : List SchedEvent) :
    (schedRun events).activeRuns ≤ 1 ∧
    ((schedRun events).isRunning = true →
      schedStep (schedRun events) SchedEvent.tick = schedRun events) ∧
    (∀ ok, (schedStep (schedRun events) (SchedEvent.finish ok)).isRunning = false) := by
  have hinv : (schedRun events).activeRuns =
      if (schedRun events).isRunning then 1 else 0 :=
    schedFold_invariant events schedInit (by simp [schedInit])
  refine ⟨?_, ?_, ?_⟩
  · rw [hinv]
    split <;> omega
  · intro hr
    simp [schedStep, hr]
  · intro ok
    by_cases ha : 0 < (schedRun events).activeRuns
    · simp [schedStep, ha]
    · have hr : (schedRun events).isRunning = false := by
        by_contra hcon
        rw [Bool.not_eq_false] at hcon
        rw [hinv, hcon] at ha
        simp at ha
      simp [schedStep, ha, hr]

/-- Witness for C9 after a single tick: one run active, a second tick is
a no-op, and a finish (even a failed one) clears the flag. -/
theorem scheduler_no_overlap_witness :
    (schedRun [SchedEvent.tick]).activeRuns ≤ 1 ∧
    schedStep (schedRun [SchedEvent.tick]) SchedEvent.tick = schedRun [SchedEvent.tick] ∧
    (schedStep (schedRun [SchedEvent.tick]) (SchedEvent.finish false)).isRunning = false := by
  obtain ⟨h1, h2, h3⟩ := scheduler_no_overlap [SchedEvent.tick]
  exact ⟨h1, h2 (by rfl), h3 false⟩

/-- One saved-route option as the scheduler's flattened task carries it. -/
structure RouteOptionData where
  distance : ℚ
  duration : ℚ
  travelMode : String
  lastComputedScore : Option ℚ
deriving Repr, DecidableEq

/-- The scoring-provider request payload (`PathwayRouteInput`);
pollutant and time details inside readings are carried by `AQIData`. -/
structure PathwayRouteInput where
  routeId : Option String
  routeIndex : ℕ
  distance : ℚ
  duration : ℚ
  travelMode : String
  weatherPoints : List (Option WeatherMain)
  aqiPoints : List (Option AQIData)
  trafficValue : ℚ
  lastComputedScore : Option ℚ
deriving Repr, DecidableEq

/-- The `pathwayInput` record built in `processRoute`
(`computeData.scheduler.ts`): note the literal `trafficValue: 0`. -/
def buildPathwayInput (routeId : String) (routeOptionIndex : ℕ)
    (routeOption : RouteOptionData)
    (weatherData : RouteWeatherResult) (aqiData : RouteAQIResult) : PathwayRouteInput :=
  { routeId := some routeId
    routeIndex := routeOptionIndex
    distance := routeOption.distance
    duration := routeOption.duration
    travelMode := routeOption.travelMode
    weatherPoints := weatherData.points.map fun p => p.main
    aqiPoints := aqiData.points.map fun p => p.aqi
    trafficValue := 0
    lastComputedScore := routeOption.lastComputedScore }

/-- The request `processRoute` sends to the scoring provider, if any: a
task with no persisted breakpoints, or missing fetch results, fails and
sends nothing. -/
def processRouteRequest (routeId : String) (routeOptionIndex : ℕ)
    (routeOption : RouteOptionData) (breakpoints : List Coordinate)
    (weatherResults : List RouteWeatherResult) (aqiResults : List RouteAQIResult) :
    Option PathwayRouteInput :=
  if breakpoints.length = 0 then none
  else
    match weatherResults.get? 0, aqiResults.get? 0 with
    | some w, some a => some (buildPathwayInput routeId routeOptionIndex routeOption w a)
    | some _, none => none
    | none, some _ => none
    | none, none => none

/-- C10: every scoring request the rescoring scheduler sends to the
external scoring provider carries `trafficValue = 0`, for every route and
route option — rescored scores always assume clear traffic. -/
theorem scheduler_traffic_always_zero (routeId : String) (routeOptionIndex : ℕ)
    (routeOption : RouteOptionData) (breakpoints : List Coordinate)
    (weatherResults : List RouteWeatherResult) (aqiResults : List RouteAQIResult)
    (input : PathwayRouteInput)
    (h : processRouteRequest routeId routeOptionIndex routeOption breakpoints
      weatherResults aqiResults = some input) :
    input.trafficValue = 0 := by
  unfold processRouteRequest at h
  split_ifs at h
  cases hw : weatherResults.get? 0 <;> cases ha : aqiResults.get? 0 <;>
    rw [hw, ha] at h <;> simp at h
  subst h
  rfl

/-- Witness for C10: a concrete scheduler task whose request carries
`trafficValue = 0`. -/
theorem scheduler_traffic_always_zero_witness :
    (buildPathwayInput "route-1" 0
      { distance := 1, duration := 2, travelMode := "driving", lastComputedScore := none }
      emptyWeatherRoute noDataAQIRoute).trafficValue = 0 :=
  scheduler_traffic_always_zero "route-1" 0
    { distance := 1, duration := 2, travelMode := "driving", lastComputedScore := none }
    [⟨0, 0⟩] [emptyWeatherRoute] [noDataAQIRoute] _ rfl

end RatKernelEval

end BreathClean
